import Mathlib

/-!
Shallow embedding of the Pylontech battery-exporter line parser
(`src/parser/parser.go`): line classification, whitespace tokenization,
the field decoders, and the two batch parsers `ParseBAT` / `ParsePWR`,
together with theorems settling the specification claims.
-/

namespace Pylontech

/-- Go `unicode.IsSpace` restricted to the runes it accepts (white space). -/
def isGoSpace (c : Char) : Bool :=
  let n := c.toNat
  n == 9 || n == 10 || n == 11 || n == 12 || n == 13 || n == 32 ||
  n == 0x85 || n == 0xA0 || n == 0x1680 ||
  (0x2000 ≤ n && n ≤ 0x200A) || n == 0x2028 || n == 0x2029 ||
  n == 0x202F || n == 0x205F || n == 0x3000

/-- The character class matched by `\s` in Go's RE2 regexps: `[\t\n\f\r ]`. -/
def isRegexSpace (c : Char) : Bool :=
  let n := c.toNat
  n == 9 || n == 10 || n == 12 || n == 13 || n == 32

/-- The character class matched by `\d` in Go's RE2 regexps: `[0-9]`. -/
def isDigitChar (c : Char) : Bool :=
  48 ≤ c.toNat && c.toNat ≤ 57

/-- Drop leading and trailing Go white space from a character list. -/
def trimList (l : List Char) : List Char :=
  ((l.dropWhile isGoSpace).reverse.dropWhile isGoSpace).reverse

/-- Go `strings.TrimSpace`. -/
def trimSpace (s : String) : String :=
  String.mk (trimList s.toList)

/-- Accumulator-based splitter behind `fields`: splits on Go white space,
dropping empty tokens (Go `strings.Fields`). -/
def fieldsList : List Char → List Char → List String
  | [], acc => if acc = [] then [] else [String.mk acc.reverse]
  | c :: rest, acc =>
    if isGoSpace c then
      if acc = [] then fieldsList rest []
      else String.mk acc.reverse :: fieldsList rest []
    else fieldsList rest (c :: acc)

/-- Go `strings.Fields`: whitespace-delimited tokens of a string. -/
def fields (s : String) : List String :=
  fieldsList s.toList []

/-- `hasSub pat l` holds when `pat` occurs as a contiguous substring of `l`
(Go `strings.Contains`). -/
def hasSub (pat : List Char) : List Char → Bool
  | [] => pat.isEmpty
  | c :: rest => List.isPrefixOf pat (c :: rest) || hasSub pat rest

/-- The character list of the literal `"Absent"`. -/
def absentChars : List Char :=
  String.toList "Absent"

/-- The anchored regex `^\s*\d+\s+\d+` of `ParseBAT` (maximal munch is exact
for this pattern): optional leading white space, a digit run, a white-space
run, then one more digit. -/
def batRegexMatch (s : String) : Bool :=
  let l := s.toList.dropWhile isRegexSpace
  let ds := l.takeWhile isDigitChar
  let r1 := l.dropWhile isDigitChar
  if ds = [] then false
  else
    let ws := r1.takeWhile isRegexSpace
    let r2 := r1.dropWhile isRegexSpace
    if ws = [] then false
    else
      match r2 with
      | c :: _ => isDigitChar c
      | [] => false

/-- The anchored regex `^\s*\d+\s+` of `ParsePWR`: optional leading white
space, a digit run, then at least one white-space character. -/
def pwrRegexMatch (s : String) : Bool :=
  let l := s.toList.dropWhile isRegexSpace
  let ds := l.takeWhile isDigitChar
  let r1 := l.dropWhile isDigitChar
  if ds = [] then false
  else
    match r1 with
    | c :: _ => isRegexSpace c
    | [] => false

/-- Decimal value of a digit run, accumulator style. -/
def digitsToNat : List Char → Nat → Nat
  | [], acc => acc
  | c :: rest, acc => digitsToNat rest (acc * 10 + (c.toNat - 48))

/-- Go `strconv.Atoi`: optional single sign, a non-empty run of ASCII digits,
base 10, failing on any other shape and on overflow of the 64-bit int range. -/
def atoi (s : String) : Option Int :=
  let p : Bool × List Char :=
    match s.toList with
    | '+' :: t => (false, t)
    | '-' :: t => (true, t)
    | t => (false, t)
  let neg := p.1
  let ds := p.2
  if ds = [] then none
  else if ds.all isDigitChar then
    let m : Int := (digitsToNat ds 0 : Nat)
    let n : Int := if neg then -m else m
    if -(2 ^ 63) ≤ n ∧ n < 2 ^ 63 then some n else none
  else none

/-- Go's conversion `int8(n)`: two's-complement truncation into `[-128, 127]`. -/
def toInt8 (n : Int) : Int :=
  (n + 128) % 256 - 128

/-- Remove one trailing `'%'` character if present
(Go `strings.TrimSuffix(s, "%")`). -/
def stripPercent (s : String) : String :=
  match s.toList.reverse with
  | '%' :: rest => String.mk rest.reverse
  | _ => s

/-- `parseSOC` from the source: strip one optional trailing `'%'`, parse the
rest as a base-10 integer, narrow to `int8`; fails exactly when `atoi` does. -/
def parseSOC (s : String) : Option Int :=
  match atoi (stripPercent s) with
  | some n => some (toInt8 n)
  | none => none

/-- `parseCoulomb` from the source: trims the numeric token and parses it;
the unit token is accepted but unused. -/
def parseCoulomb (s1 : String) (s2 : String) : Option Int :=
  atoi (trimSpace s1)

/-- `baseStateMap` from the source: the fixed state table. -/
def baseStateMap (s : String) : Option Int :=
  if s = "Charge" then some 0
  else if s = "Dischg" then some 1
  else if s = "Idle" then some 2
  else if s = "Balance" then some 3
  else if s = "N/A" then some (-1)
  else none

/-- `parseBaseState` from the source: table lookup, `-1` on a miss. -/
def parseBaseState (s : String) : Int :=
  match baseStateMap s with
  | some v => v
  | none => -1

/-- `parseInt` from the source: trim white space, then `strconv.Atoi`; the
field name only feeds the error message. -/
def parseInt (s : String) (fieldName : String) : Option Int :=
  atoi (trimSpace s)

/-- The `BatteryStatus` record of the source. -/
structure BatteryStatus where
  ID : Int
  Volt : Int
  Curr : Int
  Temp : Int
  BaseState : Int
  VoltState : String
  CurrState : String
  TempState : String
  SOC : Int
  Coulomb : Int
  BAL : String
deriving Repr, DecidableEq

/-- The `PowerStatus` record of the source. -/
structure PowerStatus where
  ID : Int
  Volt : Int
  Curr : Int
  Temp : Int
  BaseState : Int
  VoltState : String
  CurrState : String
  TempState : String
  Coulomb : Int
  BVState : String
  BTState : String
  MosTemp : String
  MTState : String
deriving Repr, DecidableEq

/-- Diagnostic events: the log lines of the source, tagged by 1-based line
number (and the offending field name for critical decode failures). -/
inductive Diag where
  | batStructuralSkip (lineNo : Nat)
  | batCriticalSkip (lineNo : Nat) (field : String)
  | batSOCWarn (lineNo : Nat)
  | batCoulombWarn (lineNo : Nat)
  | batEmptyWarn
  | pwrStructuralSkip (lineNo : Nat)
  | pwrCriticalSkip (lineNo : Nat) (field : String)
  | pwrSOCWarn (lineNo : Nat)
  | pwrEmptyWarn
deriving Repr, DecidableEq

/-- Token-to-field assembly of one battery line (body of the `ParseBAT` loop
after classification): structural minimum 12, critical fields at positions
0-3, degraded SOC/Coulomb at 8 and 9/10. -/
def batAssemble (lineNo : Nat) (fs : List String) : Option BatteryStatus × List Diag :=
  if fs.length < 12 then (none, [Diag.batStructuralSkip lineNo])
  else
    match parseInt (fs.getD 0 "") "BAT ID" with
    | none => (none, [Diag.batCriticalSkip lineNo "BAT ID"])
    | some id =>
      match parseInt (fs.getD 1 "") "BAT Volt" with
      | none => (none, [Diag.batCriticalSkip lineNo "BAT Volt"])
      | some volt =>
        match parseInt (fs.getD 2 "") "BAT Curr" with
        | none => (none, [Diag.batCriticalSkip lineNo "BAT Curr"])
        | some curr =>
          match parseInt (fs.getD 3 "") "BAT Temp" with
          | none => (none, [Diag.batCriticalSkip lineNo "BAT Temp"])
          | some temp =>
            let socR := parseSOC (fs.getD 8 "")
            let coulR := parseCoulomb (fs.getD 9 "") (fs.getD 10 "")
            let socDiags := if socR = none then [Diag.batSOCWarn lineNo] else []
            let coulDiags := if coulR = none then [Diag.batCoulombWarn lineNo] else []
            (some { ID := id, Volt := volt, Curr := curr, Temp := temp,
                    BaseState := parseBaseState (fs.getD 4 ""),
                    VoltState := fs.getD 5 "", CurrState := fs.getD 6 "",
                    TempState := fs.getD 7 "",
                    SOC := socR.getD (-1), Coulomb := coulR.getD (-1),
                    BAL := fs.getD 11 "" },
             socDiags ++ coulDiags)

/-- One iteration of the `ParseBAT` loop: trim, classify against the battery
regex, then assemble. `lineIdx` is 0-based as in the source loop. -/
def parseBATLine (lineIdx : Nat) (rawLine : String) : Option BatteryStatus × List Diag :=
  let line := trimSpace rawLine
  if !batRegexMatch line || line == "" then (none, [])
  else batAssemble (lineIdx + 1) (fields line)

/-- The `ParseBAT` loop over all lines, collecting records and diagnostics in
input order. -/
def processBATLines : Nat → List String → List BatteryStatus × List Diag
  | _, [] => ([], [])
  | idx, l :: rest =>
    let pr := parseBATLine idx l
    let tail := processBATLines (idx + 1) rest
    ((match pr.1 with | some r => r :: tail.1 | none => tail.1), pr.2 ++ tail.2)

/-- The `foundDataLikeLine` scan of `ParseBAT`: some line matches the battery
data regex after trimming. -/
def batFoundDataLike (lines : List String) : Bool :=
  lines.any (fun l => batRegexMatch (trimSpace l))

/-- Result of a battery batch parse: records, diagnostics, and the `error`
return value of the Go function. -/
structure BATResult where
  records : List BatteryStatus
  diags : List Diag
  err : Option String
deriving Repr, DecidableEq

/-- `ParseBAT` from the source: loop over the lines, then the batch-level
empty-data warning; the Go function always returns a nil error. -/
def ParseBAT (lines : List String) : BATResult :=
  let pr := processBATLines 0 lines
  let warn :=
    if pr.1.length = 0 ∧ 0 < lines.length ∧ batFoundDataLike lines = true
    then [Diag.batEmptyWarn] else []
  { records := pr.1, diags := pr.2 ++ warn, err := none }

/-- Token-to-field assembly of one power line (body of the `ParsePWR` loop
after classification): structural minimum 19, critical fields at positions
0-3, state at 8, SOC decoded at 12 into the Coulomb field. -/
def pwrAssemble (lineNo : Nat) (fs : List String) : Option PowerStatus × List Diag :=
  if fs.length < 19 then (none, [Diag.pwrStructuralSkip lineNo])
  else
    match parseInt (fs.getD 0 "") "PWR ID" with
    | none => (none, [Diag.pwrCriticalSkip lineNo "PWR ID"])
    | some id =>
      match parseInt (fs.getD 1 "") "PWR Volt" with
      | none => (none, [Diag.pwrCriticalSkip lineNo "PWR Volt"])
      | some volt =>
        match parseInt (fs.getD 2 "") "PWR Curr" with
        | none => (none, [Diag.pwrCriticalSkip lineNo "PWR Curr"])
        | some curr =>
          match parseInt (fs.getD 3 "") "PWR Temp (Board)" with
          | none => (none, [Diag.pwrCriticalSkip lineNo "PWR Temp (Board)"])
          | some temp =>
            let socR := parseSOC (fs.getD 12 "")
            let socDiags := if socR = none then [Diag.pwrSOCWarn lineNo] else []
            (some { ID := id, Volt := volt, Curr := curr, Temp := temp,
                    BaseState := parseBaseState (fs.getD 8 ""),
                    VoltState := fs.getD 9 "", CurrState := fs.getD 10 "",
                    TempState := fs.getD 11 "",
                    Coulomb := socR.getD (-1),
                    BVState := fs.getD 15 "", BTState := fs.getD 16 "",
                    MosTemp := fs.getD 17 "", MTState := fs.getD 18 "" },
             socDiags)

/-- One iteration of the `ParsePWR` loop: trim, classify (regex, the
"Absent" marker, emptiness), then assemble. -/
def parsePWRLine (lineIdx : Nat) (rawLine : String) : Option PowerStatus × List Diag :=
  let line := trimSpace rawLine
  if !pwrRegexMatch line || hasSub absentChars line.toList || line == "" then (none, [])
  else pwrAssemble (lineIdx + 1) (fields line)

/-- The `ParsePWR` loop over all lines. -/
def processPWRLines : Nat → List String → List PowerStatus × List Diag
  | _, [] => ([], [])
  | idx, l :: rest =>
    let pr := parsePWRLine idx l
    let tail := processPWRLines (idx + 1) rest
    ((match pr.1 with | some r => r :: tail.1 | none => tail.1), pr.2 ++ tail.2)

/-- The `foundDataLikeLine` scan of `ParsePWR`: some line matches the power
data regex after trimming and does not contain "Absent" (checked on the raw
line, as in the source). -/
def pwrFoundDataLike (lines : List String) : Bool :=
  lines.any (fun l => pwrRegexMatch (trimSpace l) && !hasSub absentChars l.toList)

/-- Result of a power batch parse. -/
structure PWRResult where
  records : List PowerStatus
  diags : List Diag
  err : Option String
deriving Repr, DecidableEq

/-- `ParsePWR` from the source: loop over the lines, then the batch-level
empty-data warning; the Go function always returns a nil error. -/
def ParsePWR (lines : List String) : PWRResult :=
  let pr := processPWRLines 0 lines
  let warn :=
    if pr.1.length = 0 ∧ 0 < lines.length ∧ pwrFoundDataLike lines = true
    then [Diag.pwrEmptyWarn] else []
  { records := pr.1, diags := pr.2 ++ warn, err := none }

/-! ### Concrete example lines used by witnesses and counterexamples -/

/-- The synthetic valid battery line of the specification. -/
def batGoodLine : String :=
  "1 3750 0 301 Charge Normal Normal Normal 85% 3450 mAH 0000000000000000"

/-- A battery line whose voltage token starts numerically (so the line is
Data-classified) but fails integer decoding. -/
def batBadVoltLine : String :=
  "1 34abc 0 301 Charge Normal Normal Normal 85% 3450 mAH 0000000000000000"

/-- A battery line with an unparseable SOC token. -/
def batBadSOCLine : String :=
  "1 3750 0 301 Charge Normal Normal Normal abc 3450 mAH 0000000000000000"

/-- A battery line whose SOC value overflows the signed 8-bit range. -/
def batSOC200Line : String :=
  "1 3750 0 301 Charge Normal Normal Normal 200% 3450 mAH 0000000000000000"

/-- A battery line containing the token "Absent" in a status column. -/
def batAbsentLine : String :=
  "1 3750 0 301 Charge Normal Normal Absent 85% 3450 mAH 0000000000000000"

/-- A Data-classified battery line with too few tokens. -/
def batShortLine : String :=
  "1 3750 0"

/-- A synthetic valid power line with 19 tokens and state token "Idle". -/
def pwrGoodLine : String :=
  "1 50000 0 250 F F F F Idle Normal Normal Normal 85% D T Normal Normal 250 Normal"

/-- A power line marking a physically absent slot. -/
def pwrAbsentLine : String :=
  "2 - - - - - - - Absent - - - - - - - - - -"

/-- The token list of `pwrGoodLine`. -/
def pwrGoodFields : List String :=
  fields (trimSpace pwrGoodLine)

/-- The record assembled from `pwrGoodLine`. -/
def pwrGoodRec : PowerStatus :=
  { ID := 1, Volt := 50000, Curr := 0, Temp := 250, BaseState := 2,
    VoltState := "Normal", CurrState := "Normal", TempState := "Normal",
    Coulomb := 85, BVState := "Normal", BTState := "Normal",
    MosTemp := "250", MTState := "Normal" }

/-! ### Helper lemmas -/

/-- `hasSub` decides the contiguous-substring (infix) relation. -/
theorem hasSub_spec (pat : List Char) (l : List Char) :
    hasSub pat l = true ↔ pat <:+: l := by
  induction l with
  | nil =>
    simp only [hasSub, List.isEmpty_iff, List.infix_nil]
  | cons c rest ih =>
    simp only [hasSub, Bool.or_eq_true, List.isPrefixOf_iff_prefix, ih,
      List.infix_cons_iff]

/-- An infix whose first character fails `p` survives `dropWhile p`. -/
theorem infix_dropWhile_of_head (p : Char → Bool) (c0 : Char) (pat : List Char)
    (hpat : pat.head? = some c0) (hc : p c0 = false) :
    ∀ l : List Char, pat <:+: l → pat <:+: l.dropWhile p := by
  intro l
  induction l with
  | nil => intro h; simpa using h
  | cons c rest ih =>
    intro h
    rw [List.dropWhile_cons]
    by_cases hpc : p c = true
    · rw [if_pos hpc]
      rcases List.infix_cons_iff.mp h with hpre | hinf
      · exfalso
        cases pat with
        | nil => simp at hpat
        | cons a as =>
          have ha : a = c0 := by simpa using hpat
          subst ha
          have hac : a = c := (List.cons_prefix_cons.mp hpre).1
          rw [hac, hpc] at hc
          simp at hc
      · exact ih hinf
    · rw [if_neg hpc]
      exact h

/-- "Absent" occurrences survive trimming, since the marker contains no
white space at either end. -/
theorem absent_infix_trim (l : List Char) (h : absentChars <:+: l) :
    absentChars <:+: trimList l := by
  have h1 : absentChars <:+: l.dropWhile isGoSpace :=
    infix_dropWhile_of_head isGoSpace 'A' absentChars (by decide) (by decide) l h
  have h2 : absentChars.reverse <:+: (l.dropWhile isGoSpace).reverse :=
    List.reverse_infix.mpr h1
  have h3 : absentChars.reverse <:+:
      ((l.dropWhile isGoSpace).reverse.dropWhile isGoSpace) :=
    infix_dropWhile_of_head isGoSpace 't' absentChars.reverse
      (by decide) (by decide) _ h2
  have h4 := List.reverse_infix.mpr h3
  simpa [trimList] using h4

/-- A raw line containing "Absent" still contains it after trimming. -/
theorem hasSub_absent_trim (s : String) (h : hasSub absentChars s.toList = true) :
    hasSub absentChars (trimSpace s).toList = true := by
  have h1 := (hasSub_spec absentChars s.toList).mp h
  have h2 := absent_infix_trim s.toList h1
  have h3 : (trimSpace s).toList = trimList s.toList := rfl
  rw [h3]
  exact (hasSub_spec _ _).mpr h2

/-- A line matching the battery data regex reduces `parseBATLine` to the
battery assembler on its tokens. -/
theorem parseBATLine_data (idx : Nat) (line : String)
    (h : batRegexMatch (trimSpace line) = true) :
    parseBATLine idx line = batAssemble (idx + 1) (fields (trimSpace line)) := by
  have hne : (trimSpace line == "") = false := by
    cases he : trimSpace line == "" with
    | false => rfl
    | true =>
      exfalso
      have : trimSpace line = "" := by simpa using he
      rw [this] at h
      exact absurd h (by decide)
  simp [parseBATLine, h, hne]

/-- A line matching the power data regex and free of "Absent" reduces
`parsePWRLine` to the power assembler on its tokens. -/
theorem parsePWRLine_data (idx : Nat) (line : String)
    (h : pwrRegexMatch (trimSpace line) = true)
    (ha : hasSub absentChars (trimSpace line).toList = false) :
    parsePWRLine idx line = pwrAssemble (idx + 1) (fields (trimSpace line)) := by
  have hne : (trimSpace line == "") = false := by
    cases he : trimSpace line == "" with
    | false => rfl
    | true =>
      exfalso
      have : trimSpace line = "" := by simpa using he
      rw [this] at h
      exact absurd h (by decide)
  have ha2 : hasSub absentChars (trimSpace line).data = false := ha
  simp [parsePWRLine, h, ha, ha2, hne]

/-- Per-line battery parsing never emits the batch-level empty warning. -/
theorem batEmptyWarn_notMem_line (idx : Nat) (l : String) :
    Diag.batEmptyWarn ∉ (parseBATLine idx l).2 := by
  unfold parseBATLine
  dsimp only
  split
  · simp
  · unfold batAssemble
    split
    · simp
    · split
      · simp
      · split
        · simp
        · split
          · simp
          · split
            · simp
            · dsimp only
              split_ifs <;> simp

/-- Per-line power parsing never emits the batch-level empty warning. -/
theorem pwrEmptyWarn_notMem_line (idx : Nat) (l : String) :
    Diag.pwrEmptyWarn ∉ (parsePWRLine idx l).2 := by
  unfold parsePWRLine
  dsimp only
  split
  · simp
  · unfold pwrAssemble
    split
    · simp
    · split
      · simp
      · split
        · simp
        · split
          · simp
          · split
            · simp
            · dsimp only
              split_ifs <;> simp

/-- The battery loop never emits the batch-level empty warning. -/
theorem batEmptyWarn_notMem_process (lines : List String) :
    ∀ idx : Nat, Diag.batEmptyWarn ∉ (processBATLines idx lines).2 := by
  induction lines with
  | nil => intro idx; simp [processBATLines]
  | cons l rest ih =>
    intro idx
    simp only [processBATLines, List.mem_append]
    rintro (h | h)
    · exact batEmptyWarn_notMem_line idx l h
    · exact ih (idx + 1) h

/-- The power loop never emits the batch-level empty warning. -/
theorem pwrEmptyWarn_notMem_process (lines : List String) :
    ∀ idx : Nat, Diag.pwrEmptyWarn ∉ (processPWRLines idx lines).2 := by
  induction lines with
  | nil => intro idx; simp [processPWRLines]
  | cons l rest ih =>
    intro idx
    simp only [processPWRLines, List.mem_append]
    rintro (h | h)
    · exact pwrEmptyWarn_notMem_line idx l h
    · exact ih (idx + 1) h

/-- A batch with a battery-data-like line is nonempty. -/
theorem batFoundDataLike_pos {lines : List String}
    (h : batFoundDataLike lines = true) : 0 < lines.length := by
  cases lines with
  | nil => simp [batFoundDataLike] at h
  | cons a l => simp

/-- A batch with a power-data-like line is nonempty. -/
theorem pwrFoundDataLike_pos {lines : List String}
    (h : pwrFoundDataLike lines = true) : 0 < lines.length := by
  cases lines with
  | nil => simp [pwrFoundDataLike] at h
  | cons a l => simp

/-! ### Claim theorems -/

/-- C2 (counterexample): the battery line `batAbsentLine` contains the token
"Absent", yet `ParseBAT` still produces a record from it — `ParseBAT` has no
"Absent" check, so "Absent" lines are not Noise in battery parsing. -/
theorem c2_absent_counterexample :
    hasSub absentChars (String.toList batAbsentLine) = true ∧
    (ParseBAT [batAbsentLine]).records.length = 1 := by
  constructor <;> decide

/-- C2 (amended): any input line containing the literal token "Absent" is
Noise for power parsing — `parsePWRLine` produces no record and no
diagnostic — while battery parsing performs no such check. -/
theorem c2_absent_noise_pwr (idx : Nat) (line : String)
    (h : hasSub absentChars line.toList = true) :
    parsePWRLine idx line = (none, []) := by
  have ht := hasSub_absent_trim line h
  have ht2 : hasSub absentChars (trimSpace line).data = true := ht
  simp [parsePWRLine, ht, ht2]

/-- C2 witness: the amended theorem applied to the concrete "Absent" power
line. -/
theorem c2_absent_noise_pwr_witness :
    parsePWRLine 0 pwrAbsentLine = (none, []) :=
  c2_absent_noise_pwr 0 pwrAbsentLine (by decide)

/-- C3: `ParseBAT` and `ParsePWR` always return a nil error, whatever the
lines contain; per-line problems never propagate to the batch return. -/
theorem c3_batch_never_errors (batLines pwrLines : List String) :
    (ParseBAT batLines).err = none ∧ (ParsePWR pwrLines).err = none :=
  ⟨rfl, rfl⟩

/-- C5: the state decoder is total: "Charge" ↦ 0, "Dischg" ↦ 1, "Idle" ↦ 2,
"Balance" ↦ 3, and every other token (including "N/A") ↦ -1. -/
theorem c5_state_decoder_total :
    parseBaseState "Charge" = 0 ∧ parseBaseState "Dischg" = 1 ∧
    parseBaseState "Idle" = 2 ∧ parseBaseState "Balance" = 3 ∧
    parseBaseState "N/A" = -1 ∧
    (∀ s : String, s ≠ "Charge" → s ≠ "Dischg" → s ≠ "Idle" → s ≠ "Balance" →
      parseBaseState s = -1) := by
  refine ⟨by decide, by decide, by decide, by decide, by decide, ?_⟩
  intro s h1 h2 h3 h4
  unfold parseBaseState baseStateMap
  rw [if_neg h1, if_neg h2, if_neg h3, if_neg h4]
  by_cases h5 : s = "N/A"
  · rw [if_pos h5]
  · rw [if_neg h5]

/-- C5 witness: an arbitrary unlisted token decodes to -1. -/
theorem c5_state_decoder_total_witness : parseBaseState "Fnord" = -1 :=
  c5_state_decoder_total.2.2.2.2.2 "Fnord" (by decide) (by decide) (by decide)
    (by decide)

/-- C6: the percentage decoder strips one optional trailing '%', parses the
rest base-10 narrowed to the signed 8-bit range, and fails exactly when the
integer parse fails; "85%" and "85" decode to 85, "abc" fails and the
enclosing record is kept with SOC = -1. -/
theorem c6_percentage_decoder :
    (∀ s : String, parseSOC s = none ↔ atoi (stripPercent s) = none) ∧
    (∀ (s : String) (n : Int),
      atoi (stripPercent s) = some n → parseSOC s = some (toInt8 n)) ∧
    parseSOC "85%" = some 85 ∧ parseSOC "85" = some 85 ∧
    parseSOC "abc" = none ∧
    (ParseBAT [batBadSOCLine]).records =
      [{ ID := 1, Volt := 3750, Curr := 0, Temp := 301, BaseState := 0,
         VoltState := "Normal", CurrState := "Normal", TempState := "Normal",
         SOC := -1, Coulomb := 3450, BAL := "0000000000000000" }] := by
  refine ⟨?_, ?_, by decide, by decide, by decide, by decide⟩
  · intro s
    unfold parseSOC
    cases h : atoi (stripPercent s) <;> simp
  · intro s n h
    unfold parseSOC
    rw [h]

/-- C6 witness: the generic narrowing clause applied to "85%". -/
theorem c6_percentage_decoder_witness : parseSOC "85%" = some (toInt8 85) :=
  c6_percentage_decoder.2.1 "85%" 85 (by decide)

/-- C7: the synthetic valid battery line assembles into exactly the one
record with ID 1, Volt 3750, Curr 0, Temp 301, BaseState 0, SOC 85,
Coulomb 3450, and BAL "0000000000000000". -/
theorem c7_roundtrip :
    (ParseBAT [batGoodLine]).records =
      [{ ID := 1, Volt := 3750, Curr := 0, Temp := 301, BaseState := 0,
         VoltState := "Normal", CurrState := "Normal", TempState := "Normal",
         SOC := 85, Coulomb := 3450, BAL := "0000000000000000" }] := by
  decide

/-- C10: when the stripped token parses as an integer n outside [-128, 127],
the percentage decoder signals no failure and returns n wrapped into the
signed 8-bit range; "200%" wraps to -56 and the assembled record carries the
wrapped value, not the sentinel. -/
theorem c10_soc_wrap (s : String) (n : Int)
    (hp : atoi (stripPercent s) = some n)
    (hout : n < -128 ∨ 127 < n) :
    parseSOC s = some ((n + 128) % 256 - 128) ∧ parseSOC s ≠ none ∧
    parseSOC "200%" = some (-56) ∧
    (ParseBAT [batSOC200Line]).records =
      [{ ID := 1, Volt := 3750, Curr := 0, Temp := 301, BaseState := 0,
         VoltState := "Normal", CurrState := "Normal", TempState := "Normal",
         SOC := -56, Coulomb := 3450, BAL := "0000000000000000" }] := by
  refine ⟨?_, ?_, by decide, by decide⟩
  · unfold parseSOC
    rw [hp]
    rfl
  · unfold parseSOC
    rw [hp]
    simp

/-- C10 witness: the wrap theorem applied at the token "200%". -/
theorem c10_soc_wrap_witness :
    parseSOC "200%" = some ((200 + 128) % 256 - 128) ∧
    parseSOC "200%" ≠ none :=
  ⟨(c10_soc_wrap "200%" 200 (by decide) (Or.inr (by decide))).1,
   (c10_soc_wrap "200%" 200 (by decide) (Or.inr (by decide))).2.1⟩

/-- C4: Data-classified battery lines with fewer than 12 tokens and power
lines with fewer than 19 produce no record and fire a structural-skip
diagnostic; a record is only ever assembled when the token count covers all
accessed positions (up to 11 for battery, 18 for power). -/
theorem c4_structural_minimums :
    (∀ (idx : Nat) (line : String), batRegexMatch (trimSpace line) = true →
      (fields (trimSpace line)).length < 12 →
      parseBATLine idx line = (none, [Diag.batStructuralSkip (idx + 1)])) ∧
    (∀ (idx : Nat) (line : String), pwrRegexMatch (trimSpace line) = true →
      hasSub absentChars (trimSpace line).toList = false →
      (fields (trimSpace line)).length < 19 →
      parsePWRLine idx line = (none, [Diag.pwrStructuralSkip (idx + 1)])) ∧
    (∀ (n : Nat) (fs : List String) (r : BatteryStatus),
      (batAssemble n fs).1 = some r → 12 ≤ fs.length) ∧
    (∀ (n : Nat) (fs : List String) (r : PowerStatus),
      (pwrAssemble n fs).1 = some r → 19 ≤ fs.length) := by
  refine ⟨?_, ?_, ?_, ?_⟩
  · intro idx line hm hl
    rw [parseBATLine_data idx line hm]
    unfold batAssemble
    rw [if_pos hl]
  · intro idx line hm ha hl
    rw [parsePWRLine_data idx line hm ha]
    unfold pwrAssemble
    rw [if_pos hl]
  · intro n fs r h
    by_contra hlt
    push_neg at hlt
    unfold batAssemble at h
    rw [if_pos hlt] at h
    simp at h
  · intro n fs r h
    by_contra hlt
    push_neg at hlt
    unfold pwrAssemble at h
    rw [if_pos hlt] at h
    simp at h

/-- C4 witness: the three-token battery line is dropped with a structural
skip. -/
theorem c4_structural_minimums_witness :
    parseBATLine 0 batShortLine = (none, [Diag.batStructuralSkip 1]) :=
  c4_structural_minimums.1 0 batShortLine (by decide) (by decide)

/-- C8: whenever the power assembler produces a record, its state field is
the state decoder applied to token 8 (so "Idle" gives 2), and a successful
percentage decode of token 12 lands in the record's Coulomb field. -/
theorem c8_pwr_positions (n : Nat) (fs : List String) (r : PowerStatus)
    (h : (pwrAssemble n fs).1 = some r) :
    r.BaseState = parseBaseState (fs.getD 8 "") ∧
    (∀ v : Int, parseSOC (fs.getD 12 "") = some v → r.Coulomb = v) ∧
    (fs.getD 8 "" = "Idle" → r.BaseState = 2) := by
  unfold pwrAssemble at h
  split at h
  · simp at h
  · split at h
    · simp at h
    · split at h
      · simp at h
      · split at h
        · simp at h
        · split at h
          · simp at h
          · dsimp only at h
            injection h with h
            subst h
            refine ⟨rfl, ?_, ?_⟩
            · intro v hv
              show (parseSOC (fs.getD 12 "")).getD (-1) = v
              rw [hv]
              rfl
            · intro h8
              show parseBaseState (fs.getD 8 "") = 2
              rw [h8]
              decide

/-- C8 witness: the 19-token power line with "Idle" in position 8. -/
theorem c8_pwr_positions_witness :
    pwrGoodRec.BaseState = parseBaseState (pwrGoodFields.getD 8 "") ∧
    (∀ v : Int, parseSOC (pwrGoodFields.getD 12 "") = some v →
      pwrGoodRec.Coulomb = v) ∧
    (pwrGoodFields.getD 8 "" = "Idle" → pwrGoodRec.BaseState = 2) :=
  c8_pwr_positions 1 pwrGoodFields pwrGoodRec (by decide)

/-- C9: the batch-level empty-data warning fires exactly when some line is
Data-classified but no record assembled, for both parsers; an empty input
yields an empty result with no diagnostics at all and a nil error. -/
theorem c9_empty_warning :
    (∀ lines : List String,
      Diag.batEmptyWarn ∈ (ParseBAT lines).diags ↔
        ((ParseBAT lines).records = [] ∧ batFoundDataLike lines = true)) ∧
    (∀ lines : List String,
      Diag.pwrEmptyWarn ∈ (ParsePWR lines).diags ↔
        ((ParsePWR lines).records = [] ∧ pwrFoundDataLike lines = true)) ∧
    ParseBAT [] = { records := [], diags := [], err := none } ∧
    ParsePWR [] = { records := [], diags := [], err := none } := by
  refine ⟨?_, ?_, by decide, by decide⟩
  · intro lines
    have hrec : (ParseBAT lines).records = (processBATLines 0 lines).1 := rfl
    have hdia : (ParseBAT lines).diags =
        (processBATLines 0 lines).2 ++
          (if (processBATLines 0 lines).1.length = 0 ∧ 0 < lines.length ∧
              batFoundDataLike lines = true
           then [Diag.batEmptyWarn] else []) := rfl
    rw [hrec, hdia, List.mem_append]
    constructor
    · rintro (hmem | hmem)
      · exact absurd hmem (batEmptyWarn_notMem_process lines 0)
      · by_cases hc : (processBATLines 0 lines).1.length = 0 ∧
            0 < lines.length ∧ batFoundDataLike lines = true
        · exact ⟨List.length_eq_zero.mp hc.1, hc.2.2⟩
        · rw [if_neg hc] at hmem
          simp at hmem
    · rintro ⟨h1, h2⟩
      right
      rw [if_pos ⟨by rw [h1]; rfl, batFoundDataLike_pos h2, h2⟩]
      simp
  · intro lines
    have hrec : (ParsePWR lines).records = (processPWRLines 0 lines).1 := rfl
    have hdia : (ParsePWR lines).diags =
        (processPWRLines 0 lines).2 ++
          (if (processPWRLines 0 lines).1.length = 0 ∧ 0 < lines.length ∧
              pwrFoundDataLike lines = true
           then [Diag.pwrEmptyWarn] else []) := rfl
    rw [hrec, hdia, List.mem_append]
    constructor
    · rintro (hmem | hmem)
      · exact absurd hmem (pwrEmptyWarn_notMem_process lines 0)
      · by_cases hc : (processPWRLines 0 lines).1.length = 0 ∧
            0 < lines.length ∧ pwrFoundDataLike lines = true
        · exact ⟨List.length_eq_zero.mp hc.1, hc.2.2⟩
        · rw [if_neg hc] at hmem
          simp at hmem
    · rintro ⟨h1, h2⟩
      right
      rw [if_pos ⟨by rw [h1]; rfl, pwrFoundDataLike_pos h2, h2⟩]
      simp

/-- C9 witness: a lone short-but-data-like battery line triggers the
batch-level empty warning. -/
theorem c9_empty_warning_witness :
    Diag.batEmptyWarn ∈ (ParseBAT [batShortLine]).diags :=
  (c9_empty_warning.1 [batShortLine]).mpr ⟨by decide, by decide⟩

/-- C1: on Data-classified lines with enough tokens, a failed decode of the
identity, voltage, current or temperature token discards the whole line with
one critical diagnostic (and the batch loop simply moves on), while a failed
SOC or capacity decode keeps the record with that one field set to -1. -/
theorem c1_field_criticality (idx : Nat) (line : String) (gdx : Nat) (gline : String)
    (hbm : batRegexMatch (trimSpace line) = true)
    (hbl : 12 ≤ (fields (trimSpace line)).length)
    (hpm : pwrRegexMatch (trimSpace gline) = true)
    (hpa : hasSub absentChars (trimSpace gline).toList = false)
    (hpl : 19 ≤ (fields (trimSpace gline)).length) :
    ((parseInt ((fields (trimSpace line)).getD 0 "") "BAT ID" = none ∨
      parseInt ((fields (trimSpace line)).getD 1 "") "BAT Volt" = none ∨
      parseInt ((fields (trimSpace line)).getD 2 "") "BAT Curr" = none ∨
      parseInt ((fields (trimSpace line)).getD 3 "") "BAT Temp" = none) →
      (parseBATLine idx line).1 = none ∧
      (∃ f, (parseBATLine idx line).2 = [Diag.batCriticalSkip (idx + 1) f])) ∧
    (∀ a b c d : Int,
      parseInt ((fields (trimSpace line)).getD 0 "") "BAT ID" = some a →
      parseInt ((fields (trimSpace line)).getD 1 "") "BAT Volt" = some b →
      parseInt ((fields (trimSpace line)).getD 2 "") "BAT Curr" = some c →
      parseInt ((fields (trimSpace line)).getD 3 "") "BAT Temp" = some d →
      ∃ r : BatteryStatus, (parseBATLine idx line).1 = some r ∧
        (parseSOC ((fields (trimSpace line)).getD 8 "") = none → r.SOC = -1) ∧
        (parseCoulomb ((fields (trimSpace line)).getD 9 "")
            ((fields (trimSpace line)).getD 10 "") = none → r.Coulomb = -1)) ∧
    ((parseInt ((fields (trimSpace gline)).getD 0 "") "PWR ID" = none ∨
      parseInt ((fields (trimSpace gline)).getD 1 "") "PWR Volt" = none ∨
      parseInt ((fields (trimSpace gline)).getD 2 "") "PWR Curr" = none ∨
      parseInt ((fields (trimSpace gline)).getD 3 "") "PWR Temp (Board)" = none) →
      (parsePWRLine gdx gline).1 = none ∧
      (∃ f, (parsePWRLine gdx gline).2 = [Diag.pwrCriticalSkip (gdx + 1) f])) ∧
    (∀ a b c d : Int,
      parseInt ((fields (trimSpace gline)).getD 0 "") "PWR ID" = some a →
      parseInt ((fields (trimSpace gline)).getD 1 "") "PWR Volt" = some b →
      parseInt ((fields (trimSpace gline)).getD 2 "") "PWR Curr" = some c →
      parseInt ((fields (trimSpace gline)).getD 3 "") "PWR Temp (Board)" = some d →
      ∃ r : PowerStatus, (parsePWRLine gdx gline).1 = some r ∧
        (parseSOC ((fields (trimSpace gline)).getD 12 "") = none →
          r.Coulomb = -1)) ∧
    (∀ (j : Nat) (l : String) (rest : List String),
      (parseBATLine j l).1 = none →
      (processBATLines j (l :: rest)).1 = (processBATLines (j + 1) rest).1) ∧
    (∀ (j : Nat) (l : String) (rest : List String) (r : BatteryStatus),
      (parseBATLine j l).1 = some r →
      (processBATLines j (l :: rest)).1 = r :: (processBATLines (j + 1) rest).1) ∧
    (∀ (j : Nat) (l : String) (rest : List String),
      (parsePWRLine j l).1 = none →
      (processPWRLines j (l :: rest)).1 = (processPWRLines (j + 1) rest).1) ∧
    (∀ (j : Nat) (l : String) (rest : List String) (r : PowerStatus),
      (parsePWRLine j l).1 = some r →
      (processPWRLines j (l :: rest)).1 = r :: (processPWRLines (j + 1) rest).1) := by
  have hbassem := parseBATLine_data idx line hbm
  have hpassem := parsePWRLine_data gdx gline hpm hpa
  have hbnot : ¬(fields (trimSpace line)).length < 12 := by omega
  have hpnot : ¬(fields (trimSpace gline)).length < 19 := by omega
  refine ⟨?_, ?_, ?_, ?_, ?_, ?_, ?_, ?_⟩
  · intro hfail
    rw [hbassem]
    cases h0 : parseInt ((fields (trimSpace line)).getD 0 "") "BAT ID" with
    | none =>
      unfold batAssemble
      rw [if_neg hbnot, h0]
      exact ⟨rfl, "BAT ID", rfl⟩
    | some a =>
      cases h1 : parseInt ((fields (trimSpace line)).getD 1 "") "BAT Volt" with
      | none =>
        unfold batAssemble
        rw [if_neg hbnot, h0, h1]
        exact ⟨rfl, "BAT Volt", rfl⟩
      | some b =>
        cases h2 : parseInt ((fields (trimSpace line)).getD 2 "") "BAT Curr" with
        | none =>
          unfold batAssemble
          rw [if_neg hbnot, h0, h1, h2]
          exact ⟨rfl, "BAT Curr", rfl⟩
        | some c =>
          cases h3 : parseInt ((fields (trimSpace line)).getD 3 "") "BAT Temp" with
          | none =>
            unfold batAssemble
            rw [if_neg hbnot, h0, h1, h2, h3]
            exact ⟨rfl, "BAT Temp", rfl⟩
          | some d =>
            exfalso
            rcases hfail with h | h | h | h
            · rw [h] at h0; exact Option.noConfusion h0
            · rw [h] at h1; exact Option.noConfusion h1
            · rw [h] at h2; exact Option.noConfusion h2
            · rw [h] at h3; exact Option.noConfusion h3
  · intro a b c d h0 h1 h2 h3
    rw [hbassem]
    unfold batAssemble
    rw [if_neg hbnot, h0, h1, h2, h3]
    refine ⟨_, rfl, ?_, ?_⟩
    · intro hsoc
      show (parseSOC ((fields (trimSpace line)).getD 8 "")).getD (-1) = -1
      rw [hsoc]
      rfl
    · intro hcoul
      show (parseCoulomb ((fields (trimSpace line)).getD 9 "")
          ((fields (trimSpace line)).getD 10 "")).getD (-1) = -1
      rw [hcoul]
      rfl
  · intro hfail
    rw [hpassem]
    cases h0 : parseInt ((fields (trimSpace gline)).getD 0 "") "PWR ID" with
    | none =>
      unfold pwrAssemble
      rw [if_neg hpnot, h0]
      exact ⟨rfl, "PWR ID", rfl⟩
    | some a =>
      cases h1 : parseInt ((fields (trimSpace gline)).getD 1 "") "PWR Volt" with
      | none =>
        unfold pwrAssemble
        rw [if_neg hpnot, h0, h1]
        exact ⟨rfl, "PWR Volt", rfl⟩
      | some b =>
        cases h2 : parseInt ((fields (trimSpace gline)).getD 2 "") "PWR Curr" with
        | none =>
          unfold pwrAssemble
          rw [if_neg hpnot, h0, h1, h2]
          exact ⟨rfl, "PWR Curr", rfl⟩
        | some c =>
          cases h3 : parseInt ((fields (trimSpace gline)).getD 3 "") "PWR Temp (Board)" with
          | none =>
            unfold pwrAssemble
            rw [if_neg hpnot, h0, h1, h2, h3]
            exact ⟨rfl, "PWR Temp (Board)", rfl⟩
          | some d =>
            exfalso
            rcases hfail with h | h | h | h
            · rw [h] at h0; exact Option.noConfusion h0
            · rw [h] at h1; exact Option.noConfusion h1
            · rw [h] at h2; exact Option.noConfusion h2
            · rw [h] at h3; exact Option.noConfusion h3
  · intro a b c d h0 h1 h2 h3
    rw [hpassem]
    unfold pwrAssemble
    rw [if_neg hpnot, h0, h1, h2, h3]
    refine ⟨_, rfl, ?_⟩
    intro hsoc
    show (parseSOC ((fields (trimSpace gline)).getD 12 "")).getD (-1) = -1
    rw [hsoc]
    rfl
  · intro j l rest h
    simp [processBATLines, h]
  · intro j l rest r h
    simp [processBATLines, h]
  · intro j l rest h
    simp [processPWRLines, h]
  · intro j l rest r h
    simp [processPWRLines, h]

/-- C1 witness: a Data-classified battery line with an unparseable voltage
token is discarded with one critical diagnostic. -/
theorem c1_field_criticality_witness :
    (parseBATLine 0 batBadVoltLine).1 = none ∧
    (∃ f, (parseBATLine 0 batBadVoltLine).2 = [Diag.batCriticalSkip 1 f]) :=
  (c1_field_criticality 0 batBadVoltLine 0 pwrGoodLine (by decide) (by decide)
      (by decide) (by decide) (by decide)).1
    (Or.inr (Or.inl (by decide)))

end Pylontech
